import Mathlib

/-!
Shallow embedding of `src/api/proxy.js`: a single serverless handler that
validates an inbound HTTP request, reads a credential from the process
environment, issues one outbound POST to the Gemini generative-language API,
and translates the upstream result into the client response.

The JavaScript runtime effects are made explicit:
* the process environment is an `Env` value (the `GEMINI_API_KEY` variable);
* the inbound request carries its method and a body that can be `undefined`,
  `null`, or an object with a `topic` field;
* the single `fetch` call's outcome is a `FetchOutcome` parameter (transport
  failure, or an HTTP response with status, raw body text, and the result of
  attempting to parse the body as JSON);
* the handler returns a `HandlerResult`: the one HTTP response it sends,
  the list of outbound network calls it issued, and the `console.error` log
  lines, in order;
* the `try { ... } catch (error) { ... }` block is modelled with `Except`:
  a thrown error carries its message together with the outbound calls and
  logs that happened before the throw.
-/

namespace AudienceGenerator

/-- A JSON value, used for request/response bodies and the outbound payload. -/
inductive Json where
  | null : Json
  | bool : Bool → Json
  | num : Int → Json
  | str : String → Json
  | arr : List Json → Json
  | obj : List (String × Json) → Json

/-- Field lookup in a JSON object (`none` on non-objects or missing keys). -/
def Json.getField : Json → String → Option Json
  | .obj fields, k => fields.lookup k
  | _, _ => none

/-- The `topic` field of the inbound body: absent, `null`, or a string.
Absent and `null` both read back as a falsy value in `if (!topic)`. -/
inductive TopicField where
  | absent : TopicField
  | nullVal : TopicField
  | str : String → TopicField
deriving DecidableEq

/-- JavaScript falsiness of the `topic` field as tested by `if (!topic)`:
absent (`undefined`), `null`, and the empty string are falsy. -/
def TopicField.falsy : TopicField → Bool
  | .absent => true
  | .nullVal => true
  | .str s => s = ""

/-- The inbound `request.body`: `undefined`, `null`, or an object with a `topic` field.
Destructuring `const { topic } = request.body` throws a `TypeError` on the
first two. -/
inductive ReqBody where
  | undefinedBody : ReqBody
  | nullBody : ReqBody
  | obj : TopicField → ReqBody
deriving DecidableEq

/-- The inbound HTTP request: its method string and its parsed body. -/
structure JSRequest where
  method : String
  body : ReqBody
deriving DecidableEq

/-- The process environment: the one variable the handler reads.
`none` models an unset variable (`process.env.GEMINI_API_KEY === undefined`). -/
structure Env where
  GEMINI_API_KEY : Option String
deriving DecidableEq

/-- JavaScript falsiness of `apiKey` as tested by `if (!apiKey)`:
unset (`undefined`) or the empty string. -/
def keyFalsy : Option String → Bool
  | none => true
  | some s => s = ""

/-- Outcome of the single `fetch` call: the transport throws (carrying the
thrown error's message), or an HTTP response arrives with a status code, a
raw body text (what `.text()` yields), and the result of `.json()` — either
a parsed JSON value or the parse error's message. -/
inductive FetchOutcome where
  | transportError : String → FetchOutcome
  | httpResponse : Nat → String → Except String Json → FetchOutcome

/-- The `Response.ok` predicate of the Fetch API: status in the inclusive range 200–299. -/
def statusOk (status : Nat) : Bool :=
  200 ≤ status && status ≤ 299

/-- One outbound network call as issued by `fetch(apiUrl, {...})`. -/
structure OutboundRequest where
  method : String
  url : String
  contentType : String
  body : Json

/-- The HTTP response the handler sends back to its caller. -/
structure HttpResponse where
  status : Nat
  body : Json

/-- Everything observable about one handler invocation: the single client
response, the outbound calls issued, and the `console.error` lines. -/
structure HandlerResult where
  response : HttpResponse
  outboundCalls : List OutboundRequest
  logs : List String

/-- The model name constant (source line 26). -/
def modelName : String := "gemini-2.5-flash-preview-05-20"

/-- The upstream URL template: the credential is interpolated as the `key`
query parameter. -/
def apiUrl (apiKey : String) : String :=
  "https://generativelanguage.googleapis.com/v1beta/models/" ++ modelName
    ++ ":generateContent?key=" ++ apiKey

/-- The fixed system prompt, invariant across requests (source line 30). -/
def systemPrompt : String :=
  "你是一位市場調查員和廣告專業的廣告投售。你的任務是根據用戶提供的產品或課程主題，生成一個包含10個行為的列表，以及每個行為底下8到10個精準的感興趣受眾。最重要的一點是：**每個感興趣受眾的描述後方，請務必使用括號 `(...)` 標示一個最相關的廣告平台可選取的受眾標籤（例如：興趣標籤或行為標籤），並緊接著使用方括號 `[...]` 標示該受眾規模的預估人數範圍。請以中文數字單位 (萬, 百萬) 呈現，例如：[人數範圍: 20萬 - 150萬]**。請以繁體中文回應，並嚴格遵循提供的JSON結構和數量要求。請確保受眾描述具體、專業且符合市場行銷的邏輯。"

/-- The user query: the topic interpolated into a fixed template sentence. -/
def userQuery (topic : String) : String :=
  "請針對主題：「" ++ topic ++ "」，生成10個行為及每個行為下8-10個精準受眾。"

/-- The `responseSchema` object of `generationConfig` (source lines 39–52). -/
def responseSchema : Json :=
  .obj [("type", .str "ARRAY"),
        ("items", .obj
          [("type", .str "OBJECT"),
           ("properties", .obj
             [("behavior", .obj
                [("type", .str "STRING"),
                 ("description", .str "與產品主題相關的具體用戶行為")]),
              ("audiences", .obj
                [("type", .str "ARRAY"),
                 ("items", .obj
                   [("type", .str "STRING"),
                    ("description", .str "對此行為感興趣的8-10個精準受眾輪廓，必須包含標籤和規模")])])]),
           ("required", .arr [.str "behavior", .str "audiences"])])]

/-- The outbound payload object (source lines 34–54). -/
def payload (topic : String) : Json :=
  .obj [("contents", .arr [.obj [("parts", .arr [.obj [("text", .str (userQuery topic))]])]]),
        ("systemInstruction", .obj [("parts", .arr [.obj [("text", .str systemPrompt)]])]),
        ("generationConfig", .obj
          [("responseMimeType", .str "application/json"),
           ("responseSchema", responseSchema)])]

/-- The outbound request built by the `fetch` call (source lines 57–61). -/
def outboundRequest (apiKey topic : String) : OutboundRequest :=
  ⟨"POST", apiUrl apiKey, "application/json", payload topic⟩

/-- Body of the 400 response: `{ error: '主題為必填項' }`. -/
def topicRequiredBody : Json := .obj [("error", .str "主題為必填項")]

/-- Body of the 500 response for a missing credential. -/
def missingKeyBody : Json := .obj [("error", .str "API 金鑰未在伺服器上設定")]

/-- Log line emitted when the credential is missing (source line 22). -/
def missingKeyLog : String := "錯誤：找不到 GEMINI_API_KEY 環境變數"

/-- Message of the `Error` thrown on a non-success upstream status. -/
def upstreamFailureMessage (status : Nat) : String :=
  "Gemini API 請求失敗，狀態碼: " ++ toString status

/-- Message of the `TypeError` thrown when destructuring a nullish body;
`kind` is the word the runtime inserts (undefined or null). The V8 text is
reproduced without its quotation marks. -/
def destructureMessage (kind : String) : String :=
  "Cannot destructure property topic of request.body as it is " ++ kind ++ "."

/-- Body of the generic 500 catch-all response (source line 77). -/
def internalErrorBody (details : String) : Json :=
  .obj [("error", .str "後端伺服器發生內部錯誤"), ("details", .str details)]

/-- A thrown JavaScript error, together with the outbound calls and log
lines that happened before the throw. -/
structure Thrown where
  message : String
  callsSoFar : List OutboundRequest
  logsSoFar : List String

/-- The body of the `try` block (source lines 10–73): either a normal
result, or a thrown error caught by the handler's `catch`. -/
def tryBlock (env : Env) (req : JSRequest) (fetchOutcome : FetchOutcome) :
    Except Thrown HandlerResult :=
  match req.body with
  | .undefinedBody => .error ⟨destructureMessage "undefined", [], []⟩
  | .nullBody => .error ⟨destructureMessage "null", [], []⟩
  | .obj topic =>
    if topic.falsy then
      .ok ⟨⟨400, topicRequiredBody⟩, [], []⟩
    else if keyFalsy env.GEMINI_API_KEY then
      .ok ⟨⟨500, missingKeyBody⟩, [], [missingKeyLog]⟩
    else
      let apiKey := env.GEMINI_API_KEY.getD ""
      let topicStr := match topic with | .str s => s | _ => ""
      let outReq := outboundRequest apiKey topicStr
      match fetchOutcome with
      | .transportError msg => .error ⟨msg, [outReq], []⟩
      | .httpResponse status bodyText jsonBody =>
        if !statusOk status then
          .error ⟨upstreamFailureMessage status, [outReq],
                  ["Gemini API 錯誤: " ++ bodyText]⟩
        else
          match jsonBody with
          | .error msg => .error ⟨msg, [outReq], []⟩
          | .ok data => .ok ⟨⟨200, data⟩, [outReq], []⟩

/-- The exported handler (source lines 4–79): the method check happens
outside the `try`; every caught error becomes the generic 500 response with
the error's message as `details`, after being logged. -/
def handler (env : Env) (req : JSRequest) (fetchOutcome : FetchOutcome) :
    HandlerResult :=
  if req.method ≠ "POST" then
    ⟨⟨405, .obj [("error", .str "Method Not Allowed")]⟩, [], []⟩
  else
    match tryBlock env req fetchOutcome with
    | .ok r => r
    | .error t =>
      ⟨⟨500, internalErrorBody t.message⟩, t.callsSoFar,
        t.logsSoFar ++ ["後端代理發生錯誤: " ++ t.message]⟩

/-! ## Helper lemmas -/

/-- Appending to a nonempty string yields a nonempty string. -/
theorem string_append_ne_empty (s t : String) (hs : s ≠ "") : s ++ t ≠ "" := by
  intro h
  apply hs
  have hlen := congrArg String.length h
  rw [String.length_append] at hlen
  have h0 : s.length = 0 := by
    have : ("" : String).length = 0 := rfl
    omega
  cases s with
  | _ data => cases data with
    | nil => rfl
    | cons c cs => simp [String.length] at h0

/-- The upstream URL is a fixed base with the credential appended after
the `?key=` query-parameter marker. -/
theorem apiUrl_eq (k : String) :
    apiUrl k =
      "https://generativelanguage.googleapis.com/v1beta/models/gemini-2.5-flash-preview-05-20:generateContent?key="
        ++ k := by
  show (("https://generativelanguage.googleapis.com/v1beta/models/" ++ modelName)
      ++ ":generateContent?key=") ++ k = _
  congr 1

/-! ## Claims -/

/-- C1: For every POST request with a non-empty topic and a configured
credential, if the upstream call returns a success HTTP status with a JSON
body, the handler responds with status 200 and a body equal to the upstream
JSON body, with no reshaping, filtering, or structural validation applied. -/
theorem C1_success_verbatim (topic apiKey bodyText : String) (status : Nat)
    (data : Json)
    (ht : topic ≠ "") (hk : apiKey ≠ "") (hs : statusOk status = true) :
    handler ⟨some apiKey⟩ ⟨"POST", .obj (.str topic)⟩
        (.httpResponse status bodyText (.ok data)) =
      ⟨⟨200, data⟩, [outboundRequest apiKey topic], []⟩ := by
  simp [handler, tryBlock, TopicField.falsy, keyFalsy, ht, hk, hs]

/-- Witness for C1 at a concrete request and upstream array. -/
theorem C1_success_verbatim_witness :
    handler ⟨some "k"⟩ ⟨"POST", .obj (.str "線上英語課程")⟩
        (.httpResponse 200 "[]" (.ok (.arr []))) =
      ⟨⟨200, .arr []⟩, [outboundRequest "k" "線上英語課程"], []⟩ :=
  C1_success_verbatim "線上英語課程" "k" "[]" 200 (.arr [])
    (by decide) (by decide) (by decide)

/-- C2: For every POST request with a non-empty topic and a configured
credential, if the upstream call returns any non-success HTTP status, the
handler responds with status 500 and a body carrying the fixed error message
plus a non-empty `details` message; the response is the same term for every
upstream body text (the raw upstream body only reaches the log lines). -/
theorem C2_upstream_error (topic apiKey bodyText : String) (status : Nat)
    (jsonBody : Except String Json)
    (ht : topic ≠ "") (hk : apiKey ≠ "") (hs : statusOk status = false) :
    handler ⟨some apiKey⟩ ⟨"POST", .obj (.str topic)⟩
        (.httpResponse status bodyText jsonBody) =
      ⟨⟨500, internalErrorBody (upstreamFailureMessage status)⟩,
        [outboundRequest apiKey topic],
        ["Gemini API 錯誤: " ++ bodyText,
         "後端代理發生錯誤: " ++ upstreamFailureMessage status]⟩ ∧
    upstreamFailureMessage status ≠ "" ∧
    (∀ otherText : String,
      (handler ⟨some apiKey⟩ ⟨"POST", .obj (.str topic)⟩
          (.httpResponse status otherText jsonBody)).response =
        (handler ⟨some apiKey⟩ ⟨"POST", .obj (.str topic)⟩
          (.httpResponse status bodyText jsonBody)).response) := by
  refine ⟨?_, ?_, ?_⟩
  · simp [handler, tryBlock, TopicField.falsy, keyFalsy, ht, hk, hs]
  · exact string_append_ne_empty _ _ (by decide)
  · intro otherText
    simp [handler, tryBlock, TopicField.falsy, keyFalsy, ht, hk, hs]

/-- Witness for C2 at a concrete request and upstream 429. -/
theorem C2_upstream_error_witness :
    (handler ⟨some "k"⟩ ⟨"POST", .obj (.str "線上英語課程")⟩
        (.httpResponse 429 "rate limited" (.error "parse"))) =
      ⟨⟨500, internalErrorBody (upstreamFailureMessage 429)⟩,
        [outboundRequest "k" "線上英語課程"],
        ["Gemini API 錯誤: " ++ "rate limited",
         "後端代理發生錯誤: " ++ upstreamFailureMessage 429]⟩ ∧
    upstreamFailureMessage 429 ≠ "" ∧
    (∀ otherText : String,
      (handler ⟨some "k"⟩ ⟨"POST", .obj (.str "線上英語課程")⟩
          (.httpResponse 429 otherText (.error "parse"))).response =
        (handler ⟨some "k"⟩ ⟨"POST", .obj (.str "線上英語課程")⟩
          (.httpResponse 429 "rate limited" (.error "parse"))).response) :=
  C2_upstream_error "線上英語課程" "k" "rate limited" 429 (.error "parse")
    (by decide) (by decide) (by decide)

/-- C3: For every POST request with a non-empty topic, if the credential
environment variable is absent, the handler responds with status 500 and a
body holding only the fixed error message (no `details` field, and no
credential value exists to leak), and the condition is logged. -/
theorem C3_missing_credential (t : TopicField) (fo : FetchOutcome)
    (ht : t.falsy = false) :
    handler ⟨none⟩ ⟨"POST", .obj t⟩ fo =
      ⟨⟨500, missingKeyBody⟩, [], [missingKeyLog]⟩ ∧
    missingKeyBody.getField "details" = none := by
  refine ⟨?_, rfl⟩
  simp [handler, tryBlock, ht, keyFalsy]

/-- Witness for C3 at the spec's concrete topic. -/
theorem C3_missing_credential_witness :
    handler ⟨none⟩ ⟨"POST", .obj (.str "線上英語課程")⟩ (.transportError "e") =
      ⟨⟨500, missingKeyBody⟩, [], [missingKeyLog]⟩ ∧
    missingKeyBody.getField "details" = none :=
  C3_missing_credential (.str "線上英語課程") (.transportError "e") (by decide)

/-- C4: For every POST request whose body's `topic` field is absent, null,
or the empty string (exactly the falsy cases of `if (!topic)`), the handler
responds with status 400 and the `{error: 主題為必填項}` body. -/
theorem C4_missing_topic (env : Env) (t : TopicField) (fo : FetchOutcome)
    (ht : t.falsy = true) :
    handler env ⟨"POST", .obj t⟩ fo =
      ⟨⟨400, topicRequiredBody⟩, [], []⟩ := by
  simp [handler, tryBlock, ht]

/-- Witness for C4 with a null topic and no credential configured. -/
theorem C4_missing_topic_witness :
    handler ⟨none⟩ ⟨"POST", .obj .nullVal⟩ (.transportError "e") =
      ⟨⟨400, topicRequiredBody⟩, [], []⟩ :=
  C4_missing_topic ⟨none⟩ .nullVal (.transportError "e") (by decide)

/-- C5: For every request whose HTTP method is not POST, the handler
responds with status 405 and exactly the body `{error: Method Not Allowed}`,
issues no outbound call, and logs nothing. -/
theorem C5_method_not_allowed (env : Env) (req : JSRequest) (fo : FetchOutcome)
    (h : req.method ≠ "POST") :
    handler env req fo =
      ⟨⟨405, .obj [("error", .str "Method Not Allowed")]⟩, [], []⟩ := by
  simp [handler, h]

/-- Witness for C5 at a concrete GET request. -/
theorem C5_method_not_allowed_witness :
    handler ⟨some "k"⟩ ⟨"GET", .obj (.str "x")⟩ (.transportError "e") =
      ⟨⟨405, .obj [("error", .str "Method Not Allowed")]⟩, [], []⟩ :=
  C5_method_not_allowed ⟨some "k"⟩ ⟨"GET", .obj (.str "x")⟩
    (.transportError "e") (by decide)

/-- On a POST with non-empty topic and configured key, the fetch is issued
exactly once, whatever the upstream outcome. -/
theorem outboundCalls_valid (topic apiKey : String) (fo : FetchOutcome)
    (ht : topic ≠ "") (hk : apiKey ≠ "") :
    (handler ⟨some apiKey⟩ ⟨"POST", .obj (.str topic)⟩ fo).outboundCalls =
      [outboundRequest apiKey topic] := by
  cases fo with
  | transportError msg =>
    simp [handler, tryBlock, TopicField.falsy, keyFalsy, ht, hk]
  | httpResponse status bodyText jsonBody =>
    cases hs : statusOk status <;> cases jsonBody <;>
      simp [handler, tryBlock, TopicField.falsy, keyFalsy, ht, hk, hs]

/-- The shape the spec ascribes to the one outbound request: a POST with
JSON content type, the credential as the `key` query parameter, the fixed
system instruction (a closed term, hence invariant across requests), the
topic interpolated into the fixed user-query template, and the response
schema requiring `behavior` (a string) and `audiences` (an array of strings
whose item description states the 8–10 count). -/
def OutboundSpec (topic apiKey : String) (call : OutboundRequest) : Prop :=
  call.method = "POST" ∧
  call.contentType = "application/json" ∧
  call.url =
    "https://generativelanguage.googleapis.com/v1beta/models/gemini-2.5-flash-preview-05-20:generateContent?key="
      ++ apiKey ∧
  call.body.getField "systemInstruction" =
    some (.obj [("parts", .arr [.obj [("text", .str systemPrompt)]])]) ∧
  call.body.getField "contents" =
    some (.arr [.obj [("parts", .arr [.obj [("text", .str (userQuery topic))]])]]) ∧
  userQuery topic =
    "請針對主題：「" ++ topic ++ "」，生成10個行為及每個行為下8-10個精準受眾。" ∧
  (call.body.getField "generationConfig").bind
      (fun g => g.getField "responseSchema") = some responseSchema ∧
  responseSchema.getField "type" = some (.str "ARRAY") ∧
  (responseSchema.getField "items").bind (fun i => i.getField "required") =
    some (.arr [.str "behavior", .str "audiences"]) ∧
  ((responseSchema.getField "items").bind (fun i => i.getField "properties")).bind
      (fun p => p.getField "behavior") =
    some (.obj [("type", .str "STRING"),
                ("description", .str "與產品主題相關的具體用戶行為")]) ∧
  ((responseSchema.getField "items").bind (fun i => i.getField "properties")).bind
      (fun p => p.getField "audiences") =
    some (.obj [("type", .str "ARRAY"),
                ("items", .obj [("type", .str "STRING"),
                  ("description", .str "對此行為感興趣的8-10個精準受眾輪廓，必須包含標籤和規模")])])

/-- C6: For every POST request with a non-empty topic and a configured
credential, the single outbound request is a POST whose URL carries the
credential as a query parameter, whose body holds the fixed system
instruction, the topic interpolated into the fixed user-query template, and
the response-schema descriptor with `behavior` and `audiences` required. -/
theorem C6_outbound_request_shape (topic apiKey : String) (fo : FetchOutcome)
    (ht : topic ≠ "") (hk : apiKey ≠ "") :
    ∃ call : OutboundRequest,
      (handler ⟨some apiKey⟩ ⟨"POST", .obj (.str topic)⟩ fo).outboundCalls =
        [call] ∧
      OutboundSpec topic apiKey call := by
  refine ⟨outboundRequest apiKey topic, outboundCalls_valid topic apiKey fo ht hk,
    rfl, rfl, apiUrl_eq apiKey, rfl, rfl, rfl, rfl, rfl, rfl, rfl, rfl⟩

/-- Witness for C6 at a concrete request. -/
theorem C6_outbound_request_shape_witness :
    ∃ call : OutboundRequest,
      (handler ⟨some "k"⟩ ⟨"POST", .obj (.str "線上英語課程")⟩
          (.transportError "e")).outboundCalls = [call] ∧
      OutboundSpec "線上英語課程" "k" call :=
  C6_outbound_request_shape "線上英語課程" "k" (.transportError "e")
    (by decide) (by decide)

/-- C7: Validation runs in the fixed order method → topic → credential: a
non-POST request yields 405 whatever its body and whatever the environment,
and a POST with a falsy topic yields 400 even when the credential is also
missing (the environment is universally quantified, so in particular
`⟨none⟩`). -/
theorem C7_validation_order :
    (∀ (env : Env) (m : String) (b : ReqBody) (fo : FetchOutcome),
      m ≠ "POST" → (handler env ⟨m, b⟩ fo).response.status = 405) ∧
    (∀ (env : Env) (t : TopicField) (fo : FetchOutcome),
      t.falsy = true → (handler env ⟨"POST", .obj t⟩ fo).response.status = 400) := by
  constructor
  · intro env m b fo hm
    simp [handler, hm]
  · intro env t fo ht
    simp [handler, tryBlock, ht]

/-- Witness for C7: a DELETE with a nullish body and no credential still
gets 405; a POST with an empty topic and no credential still gets 400. -/
theorem C7_validation_order_witness :
    (handler ⟨none⟩ ⟨"DELETE", .undefinedBody⟩ (.transportError "e")).response.status
      = 405 ∧
    (handler ⟨none⟩ ⟨"POST", .obj (.str "")⟩ (.transportError "e")).response.status
      = 400 :=
  ⟨C7_validation_order.1 ⟨none⟩ "DELETE" .undefinedBody (.transportError "e") (by decide),
   C7_validation_order.2 ⟨none⟩ (.str "") (.transportError "e") (by decide)⟩

/-- C8: Every invocation issues at most one outbound call; it issues exactly
one precisely when the method is POST, the body is an object with a truthy
topic, and the credential is configured — and zero otherwise (no retries).
The embedding returns exactly one `HttpResponse` by construction, matching
the one-response-per-path clause. -/
theorem C8_one_outbound_call (env : Env) (req : JSRequest) (fo : FetchOutcome) :
    (handler env req fo).outboundCalls.length ≤ 1 ∧
    ((handler env req fo).outboundCalls.length = 1 ↔
      (req.method = "POST" ∧
        (∃ t, req.body = .obj t ∧ t.falsy = false) ∧
        keyFalsy env.GEMINI_API_KEY = false)) := by
  obtain ⟨m, b⟩ := req
  obtain ⟨key⟩ := env
  by_cases hm : m = "POST"
  · subst hm
    cases b with
    | undefinedBody => simp [handler, tryBlock]
    | nullBody => simp [handler, tryBlock]
    | obj t =>
      cases hft : t.falsy with
      | true => simp [handler, tryBlock, hft]
      | false =>
        cases hkf : keyFalsy key with
        | true => simp [handler, tryBlock, hft, hkf]
        | false =>
          cases fo with
          | transportError msg => simp [handler, tryBlock, hft, hkf]
          | httpResponse status bodyText jsonBody =>
            cases hs : statusOk status <;> cases jsonBody <;>
              simp [handler, tryBlock, hft, hkf, hs]
  · simp [handler, hm]

/-- C9: For every POST whose body is `undefined` or `null`, destructuring
the topic throws, the top-level catch answers with the generic 500 body
(which does carry a `details` field) — not with 400 — and no outbound call
is made. -/
theorem C9_nullish_body (env : Env) (fo : FetchOutcome) (b : ReqBody)
    (kind : String)
    (hb : b = .undefinedBody ∧ kind = "undefined" ∨ b = .nullBody ∧ kind = "null") :
    handler env ⟨"POST", b⟩ fo =
      ⟨⟨500, internalErrorBody (destructureMessage kind)⟩, [],
        ["後端代理發生錯誤: " ++ destructureMessage kind]⟩ ∧
    (internalErrorBody (destructureMessage kind)).getField "details" =
      some (.str (destructureMessage kind)) ∧
    (internalErrorBody (destructureMessage kind)).getField "error" =
      some (.str "後端伺服器發生內部錯誤") := by
  obtain ⟨hb, hk⟩ | ⟨hb, hk⟩ := hb <;> subst hb <;> subst hk <;>
    exact ⟨by simp [handler, tryBlock], rfl, rfl⟩

/-- Witness for C9 at a POST with an `undefined` body. -/
theorem C9_nullish_body_witness :
    handler ⟨some "k"⟩ ⟨"POST", .undefinedBody⟩ (.transportError "e") =
      ⟨⟨500, internalErrorBody (destructureMessage "undefined")⟩, [],
        ["後端代理發生錯誤: " ++ destructureMessage "undefined"]⟩ ∧
    (internalErrorBody (destructureMessage "undefined")).getField "details" =
      some (.str (destructureMessage "undefined")) ∧
    (internalErrorBody (destructureMessage "undefined")).getField "error" =
      some (.str "後端伺服器發生內部錯誤") :=
  C9_nullish_body ⟨some "k"⟩ (.transportError "e") .undefinedBody "undefined"
    (Or.inl ⟨rfl, rfl⟩)

/-- C10: For every POST request with a non-empty topic and a configured
credential, if the upstream returns a success status but a body whose JSON
parse fails, the handler answers 500 with the generic error body and the
parse error's message as `details` — not 200. -/
theorem C10_unparseable_success_body (topic apiKey bodyText msg : String)
    (status : Nat)
    (ht : topic ≠ "") (hk : apiKey ≠ "") (hs : statusOk status = true) :
    handler ⟨some apiKey⟩ ⟨"POST", .obj (.str topic)⟩
        (.httpResponse status bodyText (.error msg)) =
      ⟨⟨500, internalErrorBody msg⟩, [outboundRequest apiKey topic],
        ["後端代理發生錯誤: " ++ msg]⟩ := by
  simp [handler, tryBlock, TopicField.falsy, keyFalsy, ht, hk, hs]

/-- Witness for C10 at a concrete unparseable upstream body. -/
theorem C10_unparseable_success_body_witness :
    handler ⟨some "k"⟩ ⟨"POST", .obj (.str "線上英語課程")⟩
        (.httpResponse 200 "not json" (.error "Unexpected token")) =
      ⟨⟨500, internalErrorBody "Unexpected token"⟩,
        [outboundRequest "k" "線上英語課程"],
        ["後端代理發生錯誤: " ++ "Unexpected token"]⟩ :=
  C10_unparseable_success_body "線上英語課程" "k" "not json" "Unexpected token"
    200 (by decide) (by decide) (by decide)

end AudienceGenerator
